import Mathlib

/-!
Verification of the GraphQL transport layer of the 123erfasst MCP server
(`libraries/graphql_client/client.py` and `exceptions.py`).

The transport is shallowly embedded: parsed JSON bodies become an inductive
`Json` type, the HTTP environment becomes a function from attempt index to a
`PostOutcome` (the response or exception the POST produces on that attempt),
and `_execute`'s retry loop becomes a structurally recursive function that
records the requests sent and the backoff sleeps performed.  Python-specific
semantics that the code relies on (truthiness, `dict.get`, the exceptions
raised by `.get` on a non-dict and by `str.join` on non-strings) are modelled
explicitly.
-/

namespace ErfasstClient

/-- Parsed JSON values, as produced by `response.json()`.  Numeric leaves are
modelled as integers; no claim depends on non-integral numerics. -/
inductive Json where
  | null : Json
  | bool : Bool → Json
  | num : Int → Json
  | str : String → Json
  | arr : List Json → Json
  | obj : List (String × Json) → Json
deriving Repr

/-- A parsed top-level JSON object (a Python `dict`), as an association list.
`json.loads` yields unique keys, so first-match lookup is dict lookup. -/
abbrev JsonObj := List (String × Json)

mutual

/-- Decidable equality for `Json`, needed to evaluate closed statements. -/
def Json.beq : Json → Json → Bool
  | .null, .null => true
  | .bool a, .bool b => a == b
  | .num a, .num b => a == b
  | .str a, .str b => a == b
  | .arr a, .arr b => Json.beqList a b
  | .obj a, .obj b => Json.beqFields a b
  | _, _ => false

def Json.beqList : List Json → List Json → Bool
  | [], [] => true
  | a :: as, b :: bs => Json.beq a b && Json.beqList as bs
  | _, _ => false

def Json.beqFields : List (String × Json) → List (String × Json) → Bool
  | [], [] => true
  | (k, v) :: as, (k', v') :: bs => k == k' && Json.beq v v' && Json.beqFields as bs
  | _, _ => false

end

/-- Python truthiness of a JSON value (`if data["errors"]:`): `None`, `False`,
`0`, `""`, `[]` and `{}` are falsy, everything else truthy. -/
def Json.truthy : Json → Bool
  | .null => false
  | .bool b => b
  | .num n => n != 0
  | .str s => s ≠ ""
  | .arr xs => !xs.isEmpty
  | .obj fs => !fs.isEmpty

/-- Python type name of a JSON value, as it appears in exception texts. -/
def pyTypeName : Json → String
  | .null => "NoneType"
  | .bool _ => "bool"
  | .num _ => "int"
  | .str _ => "str"
  | .arr _ => "list"
  | .obj _ => "dict"

/-- The comprehension `[error.get("message", "Unknown error") for error in
data["errors"]]`: each element must be a dict (`.get` on anything else raises
`AttributeError`); a present `message` key is used even when its value is not
a string, an absent one defaults to `"Unknown error"`. -/
def getMessages : List Json → Except String (List Json)
  | [] => .ok []
  | Json.obj fields :: rest =>
      (getMessages rest).map (((fields.lookup "message").getD (.str "Unknown error")) :: ·)
  | v :: _ => .error ("\x27" ++ pyTypeName v ++ "\x27 object has no attribute \x27get\x27")

/-- `'; '.join(error_messages)`: every item must be a `str`, otherwise `join`
raises `TypeError` naming the first offending index. -/
def joinCheck : Nat → List Json → Except String (List String)
  | _, [] => .ok []
  | i, Json.str s :: rest => (joinCheck (i + 1) rest).map (s :: ·)
  | i, v :: _ =>
      .error ("sequence item " ++ toString i ++ ": expected str instance, "
        ++ pyTypeName v ++ " found")

/-- Evaluating lines 138-139 of `client.py` on a truthy `data["errors"]`
value: iterate it, `.get` each element's message, join.  A truthy non-list is
either not iterable (`bool`/`int`) or iterates into strings/keys on which
`.get` raises `AttributeError`.  On success, the joined message list. -/
def extractMessages : Json → Except String (List String)
  | .arr xs =>
      match getMessages xs with
      | .ok vals => joinCheck 0 vals
      | .error e => .error e
  | .str _ => .error "\x27str\x27 object has no attribute \x27get\x27"
  | .obj _ => .error "\x27str\x27 object has no attribute \x27get\x27"
  | v => .error ("\x27" ++ pyTypeName v ++ "\x27 object is not iterable")

/-- The flat exception hierarchy of `exceptions.py`: `GraphQLClientError` is
the root, with `AuthenticationError`, `NetworkError` and `DataError` as the
classified kinds; `graphQLClientError` stands for the generic root class. -/
inductive GraphQLError where
  | graphQLClientError (msg : String)
  | authenticationError (msg : String)
  | networkError (msg : String)
  | dataError (msg : String)
deriving Repr, DecidableEq

/-- UTF-8 encoding of one character (`str.encode('utf-8')`), byte values as
naturals. -/
def utf8EncodeChar (c : Char) : List Nat :=
  let n := c.toNat
  if n < 0x80 then [n]
  else if n < 0x800 then
    [0xC0 ||| (n >>> 6), 0x80 ||| (n &&& 0x3F)]
  else if n < 0x10000 then
    [0xE0 ||| (n >>> 12), 0x80 ||| ((n >>> 6) &&& 0x3F), 0x80 ||| (n &&& 0x3F)]
  else
    [0xF0 ||| (n >>> 18), 0x80 ||| ((n >>> 12) &&& 0x3F),
     0x80 ||| ((n >>> 6) &&& 0x3F), 0x80 ||| (n &&& 0x3F)]

/-- UTF-8 encoding of a string. -/
def utf8Encode (s : String) : List Nat :=
  s.data.flatMap utf8EncodeChar

/-- The base64 alphabet as a list of characters. -/
def base64Alphabet : List Char :=
  "ABCDEFGHIJKLMNOPQRSTUVWXYZabcdefghijklmnopqrstuvwxyz0123456789+/".data

/-- Character of the base64 alphabet at a 6-bit index. -/
def base64Char (i : Nat) : Char :=
  (base64Alphabet.getD (i % 64) 'A')

/-- Standard base64 of a byte list with `=` padding (`base64.b64encode`). -/
def base64Encode : List Nat → String
  | [] => ""
  | [a] =>
      String.mk [base64Char (a >>> 2), base64Char ((a &&& 3) <<< 4)] ++ "=="
  | [a, b] =>
      String.mk [base64Char (a >>> 2), base64Char (((a &&& 3) <<< 4) ||| (b >>> 4)),
        base64Char ((b &&& 15) <<< 2)] ++ "="
  | a :: b :: c :: rest =>
      String.mk [base64Char (a >>> 2), base64Char (((a &&& 3) <<< 4) ||| (b >>> 4)),
        base64Char (((b &&& 15) <<< 2) ||| (c >>> 6)), base64Char (c &&& 63)]
      ++ base64Encode rest

/-- The transport's state: the fields `__init__` assigns on `self`. -/
structure GraphQLClient where
  base_url : String
  token : String
  username : String
  headers : List (String × String)
deriving Repr, DecidableEq

/-- `GraphQLClient.__init__(base_url, token, username=None)`: raises
`AuthenticationError` when `token` is falsy (the empty string), otherwise
resolves the username (falsy → `"api"`), computes the Basic auth header from
`base64(username + ":" + token)` and stores all fields. -/
def GraphQLClient.init (base_url : String) (token : String)
    (username : Option String) : Except GraphQLError GraphQLClient :=
  if token = "" then
    .error (.authenticationError "API token is required")
  else
    let uname := match username with
      | none => "api"
      | some u => if u = "" then "api" else u
    let encoded_credentials := base64Encode (utf8Encode (uname ++ ":" ++ token))
    .ok { base_url := base_url, token := token, username := uname,
          headers := [("Authorization", "Basic " ++ encoded_credentials),
                      ("Content-Type", "application/json")] }

/-- What one `client.post(...)` call produces, chosen by the environment:
a response (status plus the result `.json()` would give, `.error` being a
`JSONDecodeError`), an `httpx.NetworkError`, or any other exception. -/
inductive PostOutcome where
  | response (status : Nat) (body : Except String JsonObj)
  | httpxNetworkError (msg : String)
  | otherException (msg : String)
deriving Repr

/-- One HTTP POST as actually sent: URL, headers, JSON payload, timeout. -/
structure SentRequest where
  url : String
  headers : List (String × String)
  payload : JsonObj
  timeout : ℚ
deriving Repr

/-- `max_retries = 3` (line 103 of `client.py`). -/
def max_retries : Nat := 3

/-- How one attempt's outcome steers the loop: `final` returns or raises at
once; `retry` sleeps and continues if attempts remain, else raises the stored
exhaustion error. -/
inductive Classified where
  | final (r : Except GraphQLError Json)
  | retry (onExhaust : GraphQLError)
deriving Repr

/-- Lines 117-146 plus the `except` arms of `client.py`, for one attempt.
The `raise NetworkError(...)` statements at lines 126 and 128 sit inside the
`try:` block, and this library-local `NetworkError` is not
`httpx.NetworkError` and not `AuthenticationError`/`DataError`, so the
generic `except Exception` arm (line 159) catches it: the attempt sleeps
and is retried when attempts remain, and on the last attempt the caught
exception is wrapped as
`GraphQLClientError("Unexpected error after 3 attempts: <str(e)>")`.
Hence: 401 → `AuthenticationError` re-raised by the
`(AuthenticationError, DataError)` arm, final; ≥ 500 → the branch itself
sleeps and continues while attempts remain, and on the last attempt its
`NetworkError("Server error after 3 attempts: s")` is caught at line 159
and wrapped in the generic error; other ≥ 400 → the
`NetworkError("Client error: s")` is likewise caught at line 159, so the
attempt is retried and exhaustion wraps it in the generic error.  A 2xx/3xx
response parses the body (parse failure → `DataError`, final), raises
`DataError` on a truthy `errors` value whose message extraction succeeds
(an extraction exception is unclassified hence retryable), then returns
`data["data"]` or raises `DataError` when the key is absent — all final via
the `(AuthenticationError, DataError)` arm.  `httpx.NetworkError` is
retryable with `NetworkError` raised from inside its own arm on exhaustion;
any other exception is retryable with the generic `GraphQLClientError`. -/
def classifyAttempt : PostOutcome → Classified
  | .response status body =>
      if status = 401 then
        .final (.error (.authenticationError "Invalid or expired API token"))
      else if 500 ≤ status then
        .retry (.graphQLClientError
          ("Unexpected error after " ++ toString max_retries ++ " attempts: "
            ++ ("Server error after " ++ toString max_retries ++ " attempts: "
              ++ toString status)))
      else if 400 ≤ status then
        .retry (.graphQLClientError
          ("Unexpected error after " ++ toString max_retries ++ " attempts: "
            ++ ("Client error: " ++ toString status)))
      else
        match body with
        | .error e => .final (.error (.dataError ("Invalid JSON response: " ++ e)))
        | .ok data =>
            match data.lookup "errors" with
            | some errs =>
                if errs.truthy then
                  match extractMessages errs with
                  | .ok msgs =>
                      .final (.error (.dataError
                        ("GraphQL errors: " ++ String.intercalate "; " msgs)))
                  | .error e =>
                      .retry (.graphQLClientError
                        ("Unexpected error after " ++ toString max_retries ++ " attempts: " ++ e))
                else
                  match data.lookup "data" with
                  | some d => .final (.ok d)
                  | none => .final (.error (.dataError "No data in GraphQL response"))
            | none =>
                match data.lookup "data" with
                | some d => .final (.ok d)
                | none => .final (.error (.dataError "No data in GraphQL response"))
  | .httpxNetworkError e =>
      .retry (.networkError
        ("Network error after " ++ toString max_retries ++ " attempts: " ++ e))
  | .otherException e =>
      .retry (.graphQLClientError
        ("Unexpected error after " ++ toString max_retries ++ " attempts: " ++ e))

/-- The `for attempt in range(max_retries)` loop of `_execute`, unrolled by
remaining iterations.  Each iteration sends the (fixed) payload, classifies
the environment's outcome for the current attempt index, and on a retryable
failure sleeps `retry_delay` then doubles it when `attempt < max_retries - 1`,
else raises the exhaustion error.  Falling out of the loop gives the
unreachable `"Maximum retries exceeded"` error (line 169). -/
def execGo (c : GraphQLClient) (payload : JsonObj) (env : Nat → PostOutcome) :
    Nat → Nat → ℚ → List SentRequest → List ℚ →
    Except GraphQLError Json × List SentRequest × List ℚ
  | 0, _, _, posts, sleeps =>
      (.error (.graphQLClientError "Maximum retries exceeded"), posts, sleeps)
  | remaining + 1, attempt, retry_delay, posts, sleeps =>
      let posts' := posts ++ [⟨c.base_url, c.headers, payload, 30⟩]
      match classifyAttempt (env attempt) with
      | .final r => (r, posts', sleeps)
      | .retry onExhaust =>
          if attempt < max_retries - 1 then
            execGo c payload env remaining (attempt + 1) (retry_delay * 2)
              posts' (sleeps ++ [retry_delay])
          else
            (.error onExhaust, posts', sleeps)

/-- The full observable outcome of one `_execute` call: the returned value or
raised error, the requests sent (one per attempt), the backoff sleeps in
order, and the transport state after the call. -/
structure ExecOutcome where
  result : Except GraphQLError Json
  posts : List SentRequest
  sleeps : List ℚ
  client : GraphQLClient
deriving Repr

/-- `{"query": operation, "variables": variables or {}}` (lines 98-101):
`variables or {}` replaces a falsy value (`None` or the empty dict) by the
empty dict. -/
def buildPayload (operation : String) (vars : Option JsonObj) : JsonObj :=
  [("query", Json.str operation),
   ("variables", Json.obj (match vars with
     | none => []
     | some v => if v.isEmpty then [] else v))]

/-- `GraphQLClient._execute`: builds the payload once, runs the retry loop
with `retry_delay` starting at `1.0`.  The method body contains no assignment
to `self`, so the post-state equals the pre-state. -/
def GraphQLClient.execute (c : GraphQLClient) (operation : String)
    (vars : Option JsonObj) (env : Nat → PostOutcome) : ExecOutcome :=
  let payload := buildPayload operation vars
  let (r, posts, sleeps) := execGo c payload env max_retries 0 1 [] []
  { result := r, posts := posts, sleeps := sleeps, client := c }

/-- `GraphQLClient.query`: thin wrapper over `_execute`. -/
def GraphQLClient.query (c : GraphQLClient) (q : String)
    (vars : Option JsonObj) (env : Nat → PostOutcome) : ExecOutcome :=
  c.execute q vars env

/-- `GraphQLClient.mutation`: thin wrapper over `_execute`. -/
def GraphQLClient.mutation (c : GraphQLClient) (m : String)
    (vars : Option JsonObj) (env : Nat → PostOutcome) : ExecOutcome :=
  c.execute m vars env

/-! ### Concrete fixtures used to instantiate the theorems -/

/-- A transport instance as built for the 123erfasst endpoint. -/
def demoClient : GraphQLClient :=
  { base_url := "https://server.123erfasst.de/api/graphql"
    token := "secret"
    username := "api"
    headers := [("Authorization", "Basic YXBpOnNlY3JldA=="),
                ("Content-Type", "application/json")] }

/-- The `data` value of the introspection scenario in the spec. -/
def demoData : Json :=
  .obj [("__schema", .obj [("queryType", .obj [("name", .str "Query")])])]

/-- Environment answering every attempt with HTTP 404. -/
def env404 : Nat → PostOutcome := fun _ => .response 404 (.ok [])

/-- Environment answering every attempt with HTTP 503. -/
def env503 : Nat → PostOutcome := fun _ => .response 503 (.ok [])

/-- Environment answering every attempt with HTTP 401. -/
def env401 : Nat → PostOutcome := fun _ => .response 401 (.ok [])

/-- Environment: HTTP 500 on attempts 0 and 1, then 200 with valid data. -/
def envRecover : Nat → PostOutcome := fun n =>
  if n < 2 then .response 500 (.ok [])
  else .response 200 (.ok [("data", demoData)])

/-- Environment: HTTP 200 with a well-formed non-empty `errors` array. -/
def envGraphQLErrors : Nat → PostOutcome := fun _ =>
  .response 200 (.ok [("errors", Json.arr [Json.obj [("message", Json.str "Unauthorized")]])])

/-- Environment: HTTP 200 with a non-empty `errors` array whose element is a
plain string, on which `error.get` raises `AttributeError`. -/
def envBadErrors : Nat → PostOutcome := fun _ =>
  .response 200 (.ok [("errors", Json.arr [Json.str "boom"]), ("data", Json.null)])

/-- Environment: every attempt raises an unclassified exception. -/
def envBoom : Nat → PostOutcome := fun _ => .otherException "division by zero"

/-- Environment: HTTP 200 with `errors` bound to an empty list and `data`
present. -/
def envEmptyErrors : Nat → PostOutcome := fun _ =>
  .response 200 (.ok [("errors", Json.arr []), ("data", Json.str "ok")])

/-! ### Helper lemmas about attempt classification and the loop -/

theorem classify_401 (b : Except String JsonObj) :
    classifyAttempt (.response 401 b)
      = .final (.error (.authenticationError "Invalid or expired API token")) := rfl

theorem classify_5xx (s : Nat) (b : Except String JsonObj) (h : 500 ≤ s) :
    classifyAttempt (.response s b)
      = .retry (.graphQLClientError
          ("Unexpected error after " ++ toString max_retries ++ " attempts: "
            ++ ("Server error after " ++ toString max_retries ++ " attempts: "
              ++ toString s))) := by
  simp [classifyAttempt, h, show s ≠ 401 by omega]

theorem classify_4xx (s : Nat) (b : Except String JsonObj)
    (h1 : 400 ≤ s) (h2 : s < 500) (h3 : s ≠ 401) :
    classifyAttempt (.response s b)
      = .retry (.graphQLClientError
          ("Unexpected error after " ++ toString max_retries ++ " attempts: "
            ++ ("Client error: " ++ toString s))) := by
  simp [classifyAttempt, h1, h3, show ¬ 500 ≤ s by omega]

theorem classify_ok (s : Nat) (body : JsonObj) (d : Json)
    (hs1 : s ≠ 401) (hs2 : s < 400)
    (herr : ∀ e, body.lookup "errors" = some e → e.truthy = false)
    (hdata : body.lookup "data" = some d) :
    classifyAttempt (.response s (.ok body)) = .final (.ok d) := by
  simp only [classifyAttempt, if_neg hs1, if_neg (show ¬ 500 ≤ s by omega),
    if_neg (show ¬ 400 ≤ s by omega)]
  cases hlk : body.lookup "errors" with
  | none => simp [hlk, hdata]
  | some e => simp [hlk, hdata, herr e hlk]

theorem classify_graphql_errors (s : Nat) (body : JsonObj) (errs : Json)
    (msgs : List String) (hs1 : s ≠ 401) (hs2 : s < 400)
    (hlk : body.lookup "errors" = some errs) (ht : errs.truthy = true)
    (hex : extractMessages errs = .ok msgs) :
    classifyAttempt (.response s (.ok body))
      = .final (.error (.dataError
          ("GraphQL errors: " ++ String.intercalate "; " msgs))) := by
  simp only [classifyAttempt, if_neg hs1, if_neg (show ¬ 500 ≤ s by omega),
    if_neg (show ¬ 400 ≤ s by omega)]
  simp [hlk, ht, hex]

theorem classify_falsy_errors (s : Nat) (body : JsonObj)
    (hs1 : s ≠ 401) (hs2 : s < 400)
    (herr : ∀ e, body.lookup "errors" = some e → e.truthy = false) :
    classifyAttempt (.response s (.ok body))
      = match body.lookup "data" with
        | some d => .final (.ok d)
        | none => .final (.error (.dataError "No data in GraphQL response")) := by
  simp only [classifyAttempt, if_neg hs1, if_neg (show ¬ 500 ≤ s by omega),
    if_neg (show ¬ 400 ≤ s by omega)]
  cases hlk : body.lookup "errors" with
  | none => simp [hlk]
  | some e => simp [hlk, herr e hlk]

theorem classify_other (m : String) :
    classifyAttempt (.otherException m)
      = .retry (.graphQLClientError
          ("Unexpected error after " ++ toString max_retries ++ " attempts: " ++ m)) := rfl

/-- `execute` decomposed into the loop's three outputs and the unchanged
client. -/
theorem execute_components (c : GraphQLClient) (op : String) (vars : Option JsonObj)
    (env : Nat → PostOutcome) :
    c.execute op vars env =
      { result := (execGo c (buildPayload op vars) env max_retries 0 1 [] []).1,
        posts := (execGo c (buildPayload op vars) env max_retries 0 1 [] []).2.1,
        sleeps := (execGo c (buildPayload op vars) env max_retries 0 1 [] []).2.2,
        client := c } := rfl

/-- Every request the loop adds to the accumulator carries the client's URL
and headers and the fixed payload. -/
theorem execGo_posts_shape (c : GraphQLClient) (payload : JsonObj)
    (env : Nat → PostOutcome) :
    ∀ (remaining attempt : Nat) (delay : ℚ) (posts : List SentRequest)
      (sleeps : List ℚ) (r : SentRequest),
      r ∈ (execGo c payload env remaining attempt delay posts sleeps).2.1 →
      r ∈ posts ∨ r = ⟨c.base_url, c.headers, payload, 30⟩ := by
  intro remaining
  induction remaining with
  | zero =>
      intro attempt delay posts sleeps r hr
      exact Or.inl hr
  | succ n ih =>
      intro attempt delay posts sleeps r hr
      cases hc : classifyAttempt (env attempt) with
      | final res =>
          simp only [execGo, hc] at hr
          rcases List.mem_append.mp hr with h | h
          · exact Or.inl h
          · exact Or.inr (List.mem_singleton.mp h)
      | retry ex =>
          simp only [execGo, hc] at hr
          by_cases hlt : attempt < max_retries - 1
          · rw [if_pos hlt] at hr
            rcases ih _ _ _ _ r hr with h | h
            · rcases List.mem_append.mp h with h | h
              · exact Or.inl h
              · exact Or.inr (List.mem_singleton.mp h)
            · exact Or.inr h
          · rw [if_neg hlt] at hr
            rcases List.mem_append.mp hr with h | h
            · exact Or.inl h
            · exact Or.inr (List.mem_singleton.mp h)

/-! ### Claim theorems -/

/-- C1: evaluation of the code at the failing input (every attempt answers
HTTP 404).  The `NetworkError("Client error: 404")` raised at line 128 is
caught by the generic `except Exception` arm, so the call makes three
attempts with backoff sleeps 1.0 and 2.0 and raises the generic
`GraphQLClientError` wrapping the message — not one attempt, not zero
sleeps, and not an error of kind `NetworkError` as the claim (and the
spec's fail-fast rule for client errors) require. -/
theorem client_error_retried_evaluation :
    (demoClient.execute "query Demo" none env404).result
      = .error (.graphQLClientError
          "Unexpected error after 3 attempts: Client error: 404")
    ∧ (demoClient.execute "query Demo" none env404).posts.length = 3
    ∧ (demoClient.execute "query Demo" none env404).sleeps = [1, 2] := by
  refine ⟨rfl, rfl, ?_⟩
  simp [GraphQLClient.execute, execGo, env404, classifyAttempt, max_retries]

/-- C2: evaluation of the code at the failing input (every attempt answers
HTTP 503).  Exactly three attempts are made, but on the last one the
`NetworkError("Server error after 3 attempts: 503")` raised at line 126 is
caught by the generic `except Exception` arm and re-wrapped, so the error
that reaches the caller is the generic `GraphQLClientError` — exactly the
kind the claim says is not raised. -/
theorem server_error_generic_wrap_evaluation :
    (demoClient.execute "query Demo" none env503).result
      = .error (.graphQLClientError
          "Unexpected error after 3 attempts: Server error after 3 attempts: 503")
    ∧ (demoClient.execute "query Demo" none env503).posts.length = 3
    ∧ (demoClient.execute "query Demo" none env503).sleeps = [1, 2] := by
  refine ⟨rfl, rfl, ?_⟩
  simp [GraphQLClient.execute, execGo, env503, classifyAttempt, max_retries]

/-- C3: HTTP 500 on attempts 0 and 1 and a 200 response with a `data` key
and no non-empty `errors` list on attempt 2 make `_execute` return that
`data` value after exactly two backoff sleeps of 1.0 and then 2.0 time
units. -/
theorem server_error_then_recovery (c : GraphQLClient) (op : String)
    (vars : Option JsonObj) (env : Nat → PostOutcome) (s0 s1 : Nat)
    (b0 b1 : Except String JsonObj) (body : JsonObj) (d : Json)
    (h0 : env 0 = .response s0 b0) (g0 : 500 ≤ s0)
    (h1 : env 1 = .response s1 b1) (g1 : 500 ≤ s1)
    (h2 : env 2 = .response 200 (.ok body))
    (herr : ∀ e, body.lookup "errors" = some e → e.truthy = false)
    (hdata : body.lookup "data" = some d) :
    (c.execute op vars env).result = .ok d
    ∧ (c.execute op vars env).posts.length = 3
    ∧ (c.execute op vars env).sleeps = [1, 2] := by
  simp [GraphQLClient.execute, execGo, max_retries, h0, h1, h2,
    classify_5xx s0 b0 g0, classify_5xx s1 b1 g1,
    classify_ok 200 body d (by omega) (by omega) herr hdata]

/-- C3 witness: two 500s then the introspection data. -/
theorem server_error_then_recovery_witness :
    (demoClient.execute "query Demo" none envRecover).result = .ok demoData
    ∧ (demoClient.execute "query Demo" none envRecover).posts.length = 3
    ∧ (demoClient.execute "query Demo" none envRecover).sleeps = [1, 2] :=
  server_error_then_recovery demoClient "query Demo" none envRecover
    500 500 (.ok []) (.ok []) [("data", demoData)] demoData
    rfl (by decide) rfl (by decide) rfl
    (fun e he => by
      rw [show List.lookup "errors" [("data", demoData)] = none from rfl] at he
      exact Option.noConfusion he)
    rfl

/-- C4: an HTTP 401 response on the first attempt makes `_execute` raise
`AuthenticationError` after exactly one attempt, with no backoff sleep. -/
theorem auth_error_fails_fast (c : GraphQLClient) (op : String)
    (vars : Option JsonObj) (env : Nat → PostOutcome)
    (b : Except String JsonObj) (h0 : env 0 = .response 401 b) :
    (c.execute op vars env).result
      = .error (.authenticationError "Invalid or expired API token")
    ∧ (c.execute op vars env).posts.length = 1
    ∧ (c.execute op vars env).sleeps = [] := by
  simp [GraphQLClient.execute, execGo, max_retries, h0, classify_401]

/-- C4 witness. -/
theorem auth_error_fails_fast_witness :
    (demoClient.execute "query Demo" none env401).result
      = .error (.authenticationError "Invalid or expired API token")
    ∧ (demoClient.execute "query Demo" none env401).posts.length = 1
    ∧ (demoClient.execute "query Demo" none env401).sleeps = [] :=
  auth_error_fails_fast demoClient "query Demo" none env401 (.ok []) rfl

/-- C5: construction with an empty (falsy) secret raises
`AuthenticationError` and returns no transport; construction with a
non-empty secret succeeds, and the Authorization header equals
`Basic base64(username:secret)` (with the username defaulting to `api`),
computed at construction time. -/
theorem init_auth_contract (base_url token : String) (username : Option String) :
    (token = "" →
      GraphQLClient.init base_url token username
        = .error (.authenticationError "API token is required"))
    ∧ (∀ u, username = some u → u ≠ "" → token ≠ "" →
        ∃ c, GraphQLClient.init base_url token username = .ok c
          ∧ c.headers.lookup "Authorization"
              = some ("Basic " ++ base64Encode (utf8Encode (u ++ ":" ++ token))))
    ∧ (username = none → token ≠ "" →
        ∃ c, GraphQLClient.init base_url token username = .ok c
          ∧ c.headers.lookup "Authorization"
              = some ("Basic " ++ base64Encode (utf8Encode ("api" ++ ":" ++ token)))) := by
  refine ⟨fun h => by simp [GraphQLClient.init, h], ?_, ?_⟩
  · intro u hu hne htok
    subst hu
    refine ⟨{ base_url := base_url, token := token, username := u,
              headers := [("Authorization",
                  "Basic " ++ base64Encode (utf8Encode (u ++ ":" ++ token))),
                ("Content-Type", "application/json")] }, ?_, ?_⟩
    · simp [GraphQLClient.init, htok, hne]
    · rfl
  · intro hu htok
    subst hu
    refine ⟨{ base_url := base_url, token := token, username := "api",
              headers := [("Authorization",
                  "Basic " ++ base64Encode (utf8Encode ("api" ++ ":" ++ token))),
                ("Content-Type", "application/json")] }, ?_, ?_⟩
    · simp [GraphQLClient.init, htok]
    · rfl

/-- C5 witness: empty secret fails; secret `secret` with username `api`
succeeds with the RFC 7617 header value. -/
theorem init_auth_contract_witness :
    GraphQLClient.init "https://x" "" none
      = .error (.authenticationError "API token is required")
    ∧ ∃ c, GraphQLClient.init "https://x" "secret" (some "api") = .ok c
        ∧ c.headers.lookup "Authorization"
            = some ("Basic " ++ base64Encode (utf8Encode ("api" ++ ":" ++ "secret"))) :=
  ⟨(init_auth_contract "https://x" "" none).1 rfl,
   (init_auth_contract "https://x" "secret" (some "api")).2.1 "api" rfl
     (by decide) (by decide)⟩

/-- C6 counterexample: a 200 response binding `errors` to the non-empty
list `["boom"]` does not produce a `DataError`: `error.get` raises
`AttributeError`, the attempt is retried like a 5xx, and after three
attempts and two sleeps the generic `GraphQLClientError` is raised —
against the claim of an immediate `DataError` on one attempt. -/
theorem graphql_errors_counterexample :
    (demoClient.execute "query Demo" none envBadErrors).result
      = .error (.graphQLClientError
          ("Unexpected error after 3 attempts: \x27str\x27 object has no attribute \x27get\x27"))
    ∧ (demoClient.execute "query Demo" none envBadErrors).posts.length = 3
    ∧ (demoClient.execute "query Demo" none envBadErrors).sleeps = [1, 2] := by
  refine ⟨rfl, rfl, ?_⟩
  simp [GraphQLClient.execute, execGo, envBadErrors, classifyAttempt,
    extractMessages, getMessages, max_retries, Json.truthy]

/-- C6 (amended): a 2xx response whose body binds `errors` to a non-empty
list of objects whose `message` values, where present, are strings makes
`_execute` raise `DataError` carrying the concatenated messages
immediately: exactly one attempt, no retry, no backoff sleep. -/
theorem graphql_errors_fail_fast (c : GraphQLClient) (op : String)
    (vars : Option JsonObj) (env : Nat → PostOutcome) (s : Nat)
    (body : JsonObj) (errs : List Json) (msgs : List String)
    (h0 : env 0 = .response s (.ok body)) (hs1 : 200 ≤ s) (hs2 : s < 300)
    (hlk : body.lookup "errors" = some (.arr errs)) (hne : errs ≠ [])
    (hex : extractMessages (.arr errs) = .ok msgs) :
    (c.execute op vars env).result
      = .error (.dataError ("GraphQL errors: " ++ String.intercalate "; " msgs))
    ∧ (c.execute op vars env).posts.length = 1
    ∧ (c.execute op vars env).sleeps = [] := by
  have ht : (Json.arr errs).truthy = true := by simp [Json.truthy, hne]
  simp [GraphQLClient.execute, execGo, max_retries, h0,
    classify_graphql_errors s body (.arr errs) msgs (by omega) (by omega) hlk ht hex]

/-- C6 witness: one error object with message `Unauthorized`. -/
theorem graphql_errors_fail_fast_witness :
    (demoClient.execute "query Demo" none envGraphQLErrors).result
      = .error (.dataError
          ("GraphQL errors: " ++ String.intercalate "; " ["Unauthorized"]))
    ∧ (demoClient.execute "query Demo" none envGraphQLErrors).posts.length = 1
    ∧ (demoClient.execute "query Demo" none envGraphQLErrors).sleeps = [] :=
  graphql_errors_fail_fast demoClient "query Demo" none envGraphQLErrors
    200 [("errors", Json.arr [Json.obj [("message", Json.str "Unauthorized")]])]
    [Json.obj [("message", Json.str "Unauthorized")]] ["Unauthorized"]
    rfl (by decide) (by decide) rfl (List.cons_ne_nil _ _) rfl

/-- C7: every request sent within one `_execute` call carries the same
URL, headers and JSON payload `\x7bquery: body, variables: variables or \x7b\x7d\x7d`,
built once before the retry loop — every retry resends the first
attempt payload unchanged. -/
theorem payload_identical_across_attempts (c : GraphQLClient) (op : String)
    (vars : Option JsonObj) (env : Nat → PostOutcome) (i : Nat)
    (h : i < (c.execute op vars env).posts.length) :
    (c.execute op vars env).posts.get ⟨i, h⟩
      = ⟨c.base_url, c.headers, buildPayload op vars, 30⟩ := by
  have hmem : (c.execute op vars env).posts.get ⟨i, h⟩
      ∈ (c.execute op vars env).posts := List.get_mem _ _ _
  rcases execGo_posts_shape c (buildPayload op vars) env max_retries 0 1 [] []
      _ hmem with hmem2 | hmem2
  · exact absurd hmem2 (List.not_mem_nil _)
  · exact hmem2

/-- C7 witness: on a persistent-503 run, the request of retry attempt 1
equals the one built from the operation and variables before the loop. -/
theorem payload_identical_across_attempts_witness :
    (demoClient.execute "query Demo" (some [("id", Json.num 7)]) env503).posts.get
        ⟨1, by decide⟩
      = ⟨demoClient.base_url, demoClient.headers,
          buildPayload "query Demo" (some [("id", Json.num 7)]), 30⟩ :=
  payload_identical_across_attempts demoClient "query Demo"
    (some [("id", Json.num 7)]) env503 1 (by decide)

/-- C8: attempts that raise an exception that is neither
`AuthenticationError`, `DataError` nor `httpx.NetworkError` are retried
with the same doubling backoff as a 5xx response, and when all three
attempts raise such exceptions the generic `GraphQLClientError` wrapping
the last cause is raised. -/
theorem unexpected_exception_retried (c : GraphQLClient) (op : String)
    (vars : Option JsonObj) (env : Nat → PostOutcome) (m0 m1 m2 : String)
    (h0 : env 0 = .otherException m0) (h1 : env 1 = .otherException m1)
    (h2 : env 2 = .otherException m2) :
    (c.execute op vars env).result
      = .error (.graphQLClientError ("Unexpected error after "
          ++ toString max_retries ++ " attempts: " ++ m2))
    ∧ (c.execute op vars env).posts.length = 3
    ∧ (c.execute op vars env).sleeps = [1, 2] := by
  simp [GraphQLClient.execute, execGo, max_retries, h0, h1, h2, classify_other]

/-- C8 witness. -/
theorem unexpected_exception_retried_witness :
    (demoClient.execute "query Demo" none envBoom).result
      = .error (.graphQLClientError ("Unexpected error after "
          ++ toString max_retries ++ " attempts: " ++ "division by zero"))
    ∧ (demoClient.execute "query Demo" none envBoom).posts.length = 3
    ∧ (demoClient.execute "query Demo" none envBoom).sleeps = [1, 2] :=
  unexpected_exception_retried demoClient "query Demo" none envBoom
    "division by zero" "division by zero" "division by zero" rfl rfl rfl

/-- C9: `_execute` mutates no transport field: whatever the environment
does (return, retry or raise), the client after the call — `base_url`,
`token`, `username` and the headers mapping with its Authorization entry —
is the client before the call. -/
theorem execute_preserves_client_state (c : GraphQLClient) (op : String)
    (vars : Option JsonObj) (env : Nat → PostOutcome) :
    (c.execute op vars env).client = c := rfl

/-- C10: a 2xx response whose body binds `errors` to the empty list raises
no `DataError` for that key: execution proceeds to the `data` check in the
same single attempt, returning the `data` value when the key is present
and raising `DataError` about missing data only when it is absent. -/
theorem empty_errors_list_proceeds (c : GraphQLClient) (op : String)
    (vars : Option JsonObj) (env : Nat → PostOutcome) (s : Nat)
    (body : JsonObj) (h0 : env 0 = .response s (.ok body))
    (hs1 : 200 ≤ s) (hs2 : s < 300)
    (hlk : body.lookup "errors" = some (.arr [])) :
    (c.execute op vars env).result
      = (match body.lookup "data" with
         | some d => .ok d
         | none => .error (.dataError "No data in GraphQL response"))
    ∧ (c.execute op vars env).posts.length = 1
    ∧ (c.execute op vars env).sleeps = [] := by
  have herr : ∀ e, body.lookup "errors" = some e → e.truthy = false := by
    intro e he
    rw [hlk] at he
    cases he
    rfl
  have hcl := classify_falsy_errors s body (by omega) (by omega) herr
  cases hd : body.lookup "data" with
  | some d =>
      have hcl2 : classifyAttempt (.response s (.ok body)) = .final (.ok d) := by
        rw [hcl, hd]
      simp [GraphQLClient.execute, execGo, max_retries, h0, hcl2, hd]
  | none =>
      have hcl2 : classifyAttempt (.response s (.ok body))
          = .final (.error (.dataError "No data in GraphQL response")) := by
        rw [hcl, hd]
      simp [GraphQLClient.execute, execGo, max_retries, h0, hcl2, hd]

/-- C10 witness: `errors` empty and `data` present. -/
theorem empty_errors_list_proceeds_witness :
    (demoClient.execute "query Demo" none envEmptyErrors).result
      = (match List.lookup "data"
             [("errors", Json.arr []), ("data", Json.str "ok")] with
         | some d => .ok d
         | none => .error (.dataError "No data in GraphQL response"))
    ∧ (demoClient.execute "query Demo" none envEmptyErrors).posts.length = 1
    ∧ (demoClient.execute "query Demo" none envEmptyErrors).sleeps = [] :=
  empty_errors_list_proceeds demoClient "query Demo" none envEmptyErrors
    200 [("errors", Json.arr []), ("data", Json.str "ok")]
    rfl (by decide) (by decide) rfl

end ErfasstClient
